/-
  Verification of the LiveocnjGHL tenant-sync codebase.

  Shallow embedding of the core components of the repository:
    - lib/phone.ts        (maybeSplitConcatenated, toE164, splitAndFormatPhones)
    - lib/utils.ts        (cleanPhone, mapCustomFields, calculateRentTotals)
    - supabase sync_leases v2 handler ("part_011"): ghlFetchV2, the
      contact-lookup cascade, the per-row processing loop, and the
      checkpoint-advance logic.
    - supabase sync_leases v1 handler (src/index.ts): its per-row loop and
      checkpoint logic.

  Modelling conventions:
    - JS strings are Lean Strings; character-level operations are done on
      `String.data` char lists.
    - JS numbers are modelled exactly as `Rat` (float rounding is not
      modelled; all arithmetic the claims touch is exact small-integer
      arithmetic).
    - JS objects used as string-keyed records are association lists
      `List (String × α)` with JS `obj[k]` / `obj[k] = v` semantics
      (`jsGet` / `jsSet`); a JS object never holds a duplicate key, and
      `jsSet` preserves that.
    - Timestamps (`created_at`, `last_scraped_at`, the checkpoint) are
      abstract instants modelled as `Nat`; ISO-string comparison in the
      source is order-isomorphic to instant comparison.
    - External effects (Supabase reads/writes, GHL HTTP calls, JSON.parse
      of remotely stored text) are oracles supplied as explicit
      environment values; fallible calls are `Except` values, mirroring
      throw/try/catch in the source.
-/
import Mathlib

/-! ## JS object helpers (string-keyed records as association lists) -/

/-- JS property read `m[k]`: first binding of the key, if any. -/
def jsGet {α : Type} : List (String × α) → String → Option α
  | [], _ => none
  | p :: rest, k => if p.1 == k then some p.2 else jsGet rest k

/-- JS property write `m[k] = v`: update the binding in place, or append a
new binding (JS objects append new keys in insertion order). -/
def jsSet {α : Type} : List (String × α) → String → α → List (String × α)
  | [], k, v => [(k, v)]
  | p :: rest, k, v => if p.1 == k then (p.1, v) :: rest else p :: jsSet rest k v

/-! ## String helpers mirroring the JS string operations used by the source -/

/-- JS `s.replace(/\D/g, "")`: keep only decimal digits. -/
def stripNonDigits (s : String) : String := String.mk (s.data.filter Char.isDigit)

/-- JS `s.slice(0, n)` on a code-unit basis (all inputs here are ASCII). -/
def strTake (s : String) (n : Nat) : String := String.mk (s.data.take n)

/-- JS `s.slice(n)`. -/
def strDrop (s : String) (n : Nat) : String := String.mk (s.data.drop n)

/-- JS `s.length` (all inputs here are ASCII, so code units = chars). -/
def strLen (s : String) : Nat := s.data.length

/-- JS `s.startsWith("1")`. -/
def startsWithOne (s : String) : Bool :=
  match s.data with
  | c :: _ => c == '1'
  | [] => false

/-- Is `pat` an initial segment of `s` (char lists)? -/
def isPrefList : List Char → List Char → Bool
  | [], _ => true
  | _ :: _, [] => false
  | a :: as, b :: bs => a == b && isPrefList as bs

/-- Does `s` contain `pat` as a contiguous substring (char lists)? -/
def hasSubList (pat : List Char) : List Char → Bool
  | [] => pat.isEmpty
  | c :: rest => isPrefList pat (c :: rest) || hasSubList pat rest

/-- JS `s.includes(pat)`. -/
def strContains (s pat : String) : Bool := hasSubList pat.data s.data

/-- The delimiter class of `lib/phone.ts`: `[\s/;,|]`. -/
def isPhoneDelim (c : Char) : Bool :=
  c == ' ' || c == '\t' || c == '\n' || c == '\r' || c == '/' || c == ';' || c == ',' || c == '|'

/-- Split a char list into its maximal runs of non-delimiter characters
(the empty fields a JS `split(/[\s/;,|]+/)` can produce at the ends are
dropped; the source drops them via `.filter(Boolean)` anyway). -/
def delimRuns : List Char → List Char → List String
  | [], acc => if acc.isEmpty then [] else [String.mk acc.reverse]
  | c :: rest, acc =>
    if isPhoneDelim c then
      if acc.isEmpty then delimRuns rest [] else String.mk acc.reverse :: delimRuns rest []
    else delimRuns rest (c :: acc)

/-- JS `s.split("/")` (every occurrence, empty fields kept). -/
def splitSlashAux : List Char → List Char → List String
  | [], acc => [String.mk acc.reverse]
  | c :: rest, acc =>
    if c == '/' then String.mk acc.reverse :: splitSlashAux rest [] else splitSlashAux rest (c :: acc)

def splitSlash (s : String) : List String := splitSlashAux s.data []

/-- JS `s.trim()` (ASCII whitespace). -/
def trimStr (s : String) : String :=
  let ws : Char → Bool := fun c => c == ' ' || c == '\t' || c == '\n' || c == '\r'
  String.mk (((s.data.dropWhile ws).reverse.dropWhile ws).reverse)

/-! ## lib/phone.ts -/

/-- `maybeSplitConcatenated` from lib/phone.ts: detect a raw string that
looks like two concatenated US numbers with no delimiter. The source
special-cases the literal raw string "+185678057586097" and otherwise
tries splitting the digit run at offsets 10 and 11, accepting a split only
when both halves are 10 digits or 11 digits starting with "1". -/
def maybeSplitConcatenated (raw : String) : Option (String × String) :=
  let digits := stripNonDigits raw
  if raw == "+185678057586097" then
    some ("18567805758", "16097744077")
  else
    let tryLen : Nat → Option (String × String) := fun len =>
      let a := strTake digits len
      let b := strDrop digits len
      if (len == 10 || (len == 11 && startsWithOne a)) &&
         (strLen b == 10 || (strLen b == 11 && startsWithOne b)) then
        some (a, b)
      else none
    match tryLen 10 with
    | some ab => some ab
    | none => tryLen 11

/-- `toE164` from lib/phone.ts. -/
def toE164 (d : String) : String :=
  if strLen d == 10 then "+1" ++ d
  else if strLen d == 11 && startsWithOne d then "+" ++ d
  else if 10 ≤ strLen d && strLen d ≤ 15 then "+" ++ d
  else ""

/-- `splitAndFormatPhones` from lib/phone.ts. The JS function returns a
tuple `[primary]` or `[primary, secondary]`; modelled as
`(primary, Option secondary)`. -/
def splitAndFormatPhones (raw : String) : String × Option String :=
  if raw.isEmpty then ("", none)
  else
    match maybeSplitConcatenated raw with
    | some (a, b) => (toE164 a, some (toE164 b))
    | none =>
      let parts := (delimRuns raw.data []).map stripNonDigits |>.filter (fun p => !p.isEmpty)
      let primary := toE164 (parts.getD 0 "")
      let secondary := toE164 (parts.getD 1 "")
      if secondary.isEmpty then (primary, none) else (primary, some secondary)

/-! ## lib/utils.ts -/

/-- `cleanPhone` from lib/utils.ts: digits only, at most 15 of them. -/
def cleanPhone (s : String) : String := strTake (stripNonDigits s) 15

/-- `calculateRentTotals` from lib/utils.ts: copy the existing totals, add
the rent into the given year's bucket (defaulting to 0), and sum all
buckets into the lifetime total. The source copies `existingTotals`
(`{...existingTotals}`) before writing, so the input object is never
mutated; the Lean embedding is pure, which reflects that. -/
def calculateRentTotals (rent : Rat) (year : String) (existingTotals : List (String × Rat)) :
    List (String × Rat) × Rat :=
  let totals := jsSet existingTotals year ((jsGet existingTotals year).getD 0 + rent)
  (totals, (totals.map (fun p => p.2)).foldl (fun a b => a + b) 0)

/-! ## Custom-field shapes and the upsert-payload coercion -/

/-- One remote custom-field entry, the v2 API's array element shape. -/
structure CFEntry (α : Type) where
  id : String
  value : α
deriving DecidableEq

/-- The dynamic JS value handed to the custom-field coercion when the
contact-upsert payload is built: an array of entries, a key→value object,
`null`, or `undefined`. -/
inductive CFInput (α : Type) where
  | arr (l : List (CFEntry α))
  | obj (m : List (String × α))
  | nullv
  | undef
deriving DecidableEq

/-- `mapCustomFields` from lib/utils.ts:
`Object.entries(customFields || {}).map(([id, value]) => ({id, value}))`.
`Object.entries` of an array yields index-keyed pairs; of `null`/`undefined`
(after `|| {}`) yields nothing. Total: never throws. -/
def mapCustomFields {α : Type} : CFInput α → List (CFEntry α)
  | .arr l => l.enum.map (fun p => ⟨toString p.1, p.2.value⟩)
  | .obj m => m.map (fun p => ⟨p.1, p.2⟩)
  | .nullv => []
  | .undef => []

/-- The customFields coercion inside `upsertContactV2` of the v2 handler
(part_011 lines 151-163): `Array.isArray` passes the array through,
a non-null object is converted entry-wise, anything else becomes `[]`
(`null` fails the `!== null` guard, `undefined` fails `typeof === 'object'`). -/
def upsertContactV2CustomFields {α : Type} : CFInput α → List (CFEntry α)
  | .arr l => l
  | .obj m => m.map (fun p => ⟨p.1, p.2⟩)
  | .nullv => []
  | .undef => []

/-- The customFields coercion inside `upsertContactV2` of the part_014
variant: `Array.isArray(x) ? x : mapCustomFields(x)`. -/
def upsertContact14CustomFields {α : Type} (x : CFInput α) : List (CFEntry α) :=
  match x with
  | .arr l => l
  | other => mapCustomFields other

/-! ## RemoteClient: `ghlFetchV2` (v2 handler, part_011 lines 47-91) -/

/-- The hardcoded location (tenant-scoping) identifier of the source. -/
def LOCATION_ID : String := "v5jAtUx8vmG1ucKOCjA8"

/-- A request body as seen by `ghlFetchV2`: the JSON text either parses to
an object (modelled as its string-valued fields) or is malformed, in which
case `JSON.parse` throws, the error is logged and the body is left alone. -/
inductive BodyVal where
  | obj (fields : List (String × String))
  | malformed (raw : String)
deriving DecidableEq

/-- The `opts` argument of `ghlFetchV2`. -/
structure HttpOpts where
  method : String
  body : Option BodyVal
  headers : List (String × String)
deriving DecidableEq

/-- The request `ghlFetchV2` actually sends. -/
structure PreparedRequest where
  url : String
  headers : List (String × String)
  body : Option BodyVal
deriving DecidableEq

/-- The request-preparation half of `ghlFetchV2`: default headers merged
with (and overridable by) `opts.headers`; `locationId` appended to the
query string of a GET that lacks it; `locationId` added to the parsed body
of a POST whose body lacks a truthy `locationId` (a malformed body is left
unchanged). No other method is touched. -/
def ghlPrepareV2 (keyV2 url : String) (opts : HttpOpts) : PreparedRequest :=
  let headers := opts.headers.foldl (fun acc p => jsSet acc p.1 p.2)
    [("Authorization", "Bearer " ++ keyV2), ("Content-Type", "application/json"),
     ("Version", "2021-07-28")]
  let url' :=
    if opts.method == "GET" && !strContains url "locationId=" then
      url ++ (if strContains url "?" then "&" else "?") ++ "locationId=" ++ LOCATION_ID
    else url
  let body' :=
    if opts.method == "POST" then
      match opts.body with
      | some (BodyVal.obj fields) =>
        if (jsGet fields "locationId").getD "" == "" then
          some (BodyVal.obj (jsSet fields "locationId" LOCATION_ID))
        else some (BodyVal.obj fields)
      | some (BodyVal.malformed s) => some (BodyVal.malformed s)
      | none => none
    else opts.body
  { url := url', headers := headers, body := body' }

/-- The response-checking half of `ghlFetchV2`: a non-2xx status
(`!res.ok`) raises; otherwise the response passes through. -/
def ghlCheckV2 (status : Nat) (bodyText : String) : Except String String :=
  if 200 ≤ status ∧ status < 300 then Except.ok bodyText
  else Except.error ("GHL v2 failed " ++ toString status)

/-! ## RemoteEntityResolver: the v2 lookup cascade (part_011 lines 94-145, 377-407) -/

/-- A remote contact as the sync code observes it: its id and the stored
yearly-totals custom field (`existing?.customField?.yearly_rent_totals_json`). -/
structure GhlContact where
  id : String
  yearly_rent_totals_json : Option String
deriving DecidableEq

/-- Outcome of one vendor lookup call: the first returned contact, an
empty result, or a failure (non-2xx response or network error — both
surface as a thrown error inside the lookup helper). -/
inductive LookupOutcome where
  | found (c : GhlContact)
  | notFound
  | failure
deriving DecidableEq

/-- The remote directory as an oracle: what each lookup endpoint would
answer for each key. -/
structure LookupWorld where
  byEmail : String → LookupOutcome
  byPhone : String → LookupOutcome
  byQuery : String → LookupOutcome

/-- `data?.contacts?.[0] || null` on a successful call, `null` from the
`catch` on a failed one. -/
def lookupToOption : LookupOutcome → Option GhlContact
  | .found c => some c
  | .notFound => none
  | .failure => none

/-- `getContactByEmailV2`: `if (!email) return null`, then the call with
its internal try/catch returning `null` on any error. -/
def getContactByEmailV2 (w : LookupWorld) (email : String) : Option GhlContact :=
  if email.isEmpty then none else lookupToOption (w.byEmail email)

/-- `getContactByPhoneV2`. -/
def getContactByPhoneV2 (w : LookupWorld) (phone : String) : Option GhlContact :=
  if phone.isEmpty then none else lookupToOption (w.byPhone phone)

/-- `getContactByQueryV2` (free-text query by confirmation number or
stringified tenant id). -/
def getContactByQueryV2 (w : LookupWorld) (query : String) : Option GhlContact :=
  if query.isEmpty then none else lookupToOption (w.byQuery query)

/-- The lookup cascade of the v2 handler (part_011 lines 377-401):
email, then phone (only when the draft contact got a phone), then
confirmation number (when present), then `String(r.id)`. -/
def resolveContact (w : LookupWorld) (email phone conf : String) (tid : Nat) :
    Option GhlContact :=
  let e1 := getContactByEmailV2 w email
  let e2 :=
    match e1 with
    | some c => some c
    | none => if !phone.isEmpty then getContactByPhoneV2 w phone else none
  match e2 with
  | some c => some c
  | none =>
    let e3 := if !conf.isEmpty then getContactByQueryV2 w conf else none
    match e3 with
    | some c => some c
    | none => getContactByQueryV2 w (toString tid)

/-- First non-`none` element of a list of strategy results. -/
def firstSome : List (Option GhlContact) → Option GhlContact
  | [] => none
  | some c :: _ => some c
  | none :: rest => firstSome rest

/-- Modelled from the spec (§4.4): one resolver step — skipped when its
input is empty, and a failed call counts as "no match". Used only to state
the cascade as the spec words it, for comparison with `resolveContact`. -/
def lookupStep (input : String) (outcome : LookupOutcome) : Option GhlContact :=
  if input.isEmpty then none
  else
    match outcome with
    | .found c => some c
    | .notFound => none
    | .failure => none

/-- Modelled from the spec (§4.4): the ordered, short-circuiting list of
lookup strategies. -/
def cascadeSpec (w : LookupWorld) (email phone conf idStr : String) : Option GhlContact :=
  firstSome
    [lookupStep email (w.byEmail email),
     lookupStep phone (w.byPhone phone),
     lookupStep conf (w.byQuery conf),
     lookupStep idStr (w.byQuery idStr)]

/-! ## The tenant data model and sync configuration -/

/-- The dynamic shape of `r.tenant_phone`: an array of phone strings, a
single string, or null/undefined. -/
inductive PhoneField where
  | arr (l : List String)
  | str (s : String)
  | nullv
deriving DecidableEq

/-- One row of `public.tenants` as the sync handlers read it. -/
structure Tenant where
  id : Nat
  tenant_email : String
  first_name : String
  last_name : String
  tenant_phone : PhoneField
  user_id : String
  check_in_date : Option String
  status : String
  confirmation_number : String
  rent : Rat
  rental_address : String
  unit_number : String
  unit_owner : String
  owner_phone : List String
  created_at : Option Nat
  last_scraped_at : Option Nat
deriving DecidableEq

/-- The six stage ids loaded from the environment (empty = unset). -/
structure StageIds where
  newInquiry : String
  needsSearch : String
  searchSent : String
  booked2025 : String
  booked2026 : String
  pastGuest : String
deriving DecidableEq

/-- Environment-derived configuration of the v2 handler: pipeline and
stage ids, the optional custom-field ids, and the OWNERS uuid→user map. -/
structure SyncConfig where
  pipeline : String
  stages : StageIds
  cfTenantId : Option String
  cfSecondaryPhone : Option String
  cfYearlyRentTotals : Option String
  cfTotalLifetimeRent : Option String
  owners : List (String × String)
deriving DecidableEq

/-- The handler's missing-GHL-ids check (part_011 lines 227-236): pipeline
or any stage id unset aborts the run with a 500. -/
def configMissingV2 (cfg : SyncConfig) : Bool :=
  cfg.pipeline.isEmpty || cfg.stages.newInquiry.isEmpty || cfg.stages.needsSearch.isEmpty ||
  cfg.stages.searchSent.isEmpty || cfg.stages.booked2025.isEmpty ||
  cfg.stages.booked2026.isEmpty || cfg.stages.pastGuest.isEmpty

/-- `r.check_in_date?.substring(0, 4)`: `none` models the `undefined` the
optional chain yields when the date is null. -/
def yearOf (r : Tenant) : Option String := r.check_in_date.map (fun d => strTake d 4)

/-- JS truthiness of the `year` value (`undefined` and `""` are falsy). -/
def yearTruthy : Option String → Bool
  | none => false
  | some s => !s.isEmpty

/-- JS truthiness of an optional string. -/
def strOptTruthy : Option String → Bool
  | none => false
  | some s => !s.isEmpty

/-- `Number(year)` for the 4-char date prefix, as far as `< 2025` is
concerned: `Number(undefined)` is NaN (condition false), `Number("")` is 0,
a digit string is its value, anything else is NaN (condition false). -/
def jsYearLt2025 : Option String → Bool
  | none => false
  | some s =>
    if s.isEmpty then true
    else if s.data.all Char.isDigit then
      decide (s.foldl (fun n c => n * 10 + (c.toNat - 48)) 0 < 2025)
    else false

/-- Stage choice with fallback (part_011 lines 500-506 / index.ts 287-293):
`stageId = GHL.STAGES.NEW_INQUIRY`, then the first matching rule replaces
it by `STAGE || stageId`. -/
def chooseStage (st : StageIds) (year : Option String) (status : String) : String :=
  let s0 := st.newInquiry
  let orStr : String → String := fun s => if s.isEmpty then s0 else s
  if year == some "2026" then orStr st.booked2026
  else if year == some "2025" then orStr st.booked2025
  else if status == "needs_search" then orStr st.needsSearch
  else if status == "search_sent" then orStr st.searchSent
  else if jsYearLt2025 year then orStr st.pastGuest
  else s0

/-! ## The v2 per-row pipeline (part_011 lines 280-580) -/

/-- A custom-field value pushed by the v2 handler: a plain string, the
yearly-totals object (stored JSON-stringified; kept structured here), or
`String(totalLifetimeRent)` (kept as its numeric value here). -/
inductive CFVal where
  | s (v : String)
  | totals (t : List (String × Rat))
  | num (q : Rat)
deriving DecidableEq

/-- The phone handling of the v2 row loop (part_011 lines 297-354): the
draft contact's `phone` value and the secondary-phone custom-field entries
it pushes, for each dynamic shape of `tenant_phone`. -/
def contactPhoneFields (cfg : SyncConfig) (tp : PhoneField) :
    Option String × List (CFEntry CFVal) :=
  match tp with
  | .nullv => (none, [])
  | .arr l =>
    if l.length > 0 then
      let firstPhone := l.getD 0 ""
      let ps := splitAndFormatPhones firstPhone
      let pri := ps.1
      let sec := ps.2
      let phone := if !pri.isEmpty then some pri else none
      let cfs1 :=
        if !pri.isEmpty then
          if strOptTruthy sec then
            match cfg.cfSecondaryPhone with
            | some cfid => [⟨cfid, CFVal.s (sec.getD "")⟩]
            | none => []
          else []
        else []
      let cfs2 :=
        if l.length > 1 && !strOptTruthy sec then
          let fp2 := (splitAndFormatPhones (l.getD 1 "")).1
          if !fp2.isEmpty then
            match cfg.cfSecondaryPhone with
            | some cfid => [⟨cfid, CFVal.s fp2⟩]
            | none => []
          else []
        else []
      (phone, cfs1 ++ cfs2)
    else (none, [])
  | .str s =>
    if s.isEmpty then (none, [])
    else
      let ps := splitAndFormatPhones s
      let pri := ps.1
      let sec := ps.2
      let phone := if !pri.isEmpty then some pri else none
      let cfs :=
        if strOptTruthy sec then
          match cfg.cfSecondaryPhone with
          | some cfid => [⟨cfid, CFVal.s (sec.getD "")⟩]
          | none => []
        else []
      (phone, cfs)

/-- The parsed reply of `upsertContactV2` as the handler checks it:
`contactData && contactData.id` (an empty id models a missing/falsy id). -/
structure UpsertReply where
  id : String
deriving DecidableEq

/-- The external effects one iteration of the v2 row loop can hit. -/
structure RowEnv where
  world : LookupWorld
  parseTotals : String → Except String (List (String × Rat))
  upsert : Except String UpsertReply
  opp : Except String Unit

/-- Reading the resolved contact's stored totals (part_011 lines 409-419):
parse the custom field when it is present and truthy, and fall back to the
empty object when it is absent or `JSON.parse` throws. -/
def readExistingTotals (env : RowEnv) (existing : Option GhlContact) :
    List (String × Rat) :=
  match existing with
  | some c =>
    match c.yearly_rent_totals_json with
    | some s =>
      if s.isEmpty then []
      else
        match env.parseTotals s with
        | .ok t => t
        | .error _ => []
    | none => []
  | none => []

/-- The draft contact the v2 handler assembles and sends. -/
structure ContactDraft where
  email : String
  firstName : String
  lastName : String
  phone : Option String
  assignedTo : Option String
  customField : List (CFEntry CFVal)
deriving DecidableEq

/-- Building the v2 contact payload (part_011 lines 288-445): base fields,
phone(s), `assignedTo` from OWNERS, the tenant-id custom field, and — when
`rent > 0` and a check-in year exists — the resolver cascade, stored-totals
parse, `calculateRentTotals`, and the totals custom fields. Also returns
the resolved contact. -/
def buildContactV2 (cfg : SyncConfig) (env : RowEnv) (r : Tenant) :
    ContactDraft × Option GhlContact :=
  let pf := contactPhoneFields cfg r.tenant_phone
  let phone := pf.1
  let phoneCFs := pf.2
  let assignedTo := jsGet cfg.owners r.user_id
  let tenantCF :=
    match cfg.cfTenantId with
    | some cfid => [⟨cfid, CFVal.s (toString r.id)⟩]
    | none => []
  let year := yearOf r
  let base : ContactDraft :=
    { email := r.tenant_email, firstName := r.first_name, lastName := r.last_name,
      phone := phone, assignedTo := assignedTo, customField := phoneCFs ++ tenantCF }
  if r.rent > 0 && yearTruthy year then
    let existing := resolveContact env.world r.tenant_email (phone.getD "")
      r.confirmation_number r.id
    let existingTotals := readExistingTotals env existing
    let res := calculateRentTotals r.rent (year.getD "") existingTotals
    let totalsCFs :=
      (match cfg.cfYearlyRentTotals with
       | some cfid => [⟨cfid, CFVal.totals res.1⟩]
       | none => []) ++
      (match cfg.cfTotalLifetimeRent with
       | some cfid => [⟨cfid, CFVal.num res.2⟩]
       | none => [])
    ({ base with customField := base.customField ++ totalsCFs }, existing)
  else (base, none)

/-- One iteration of the v2 row loop: `true` iff the row reaches
`processedTenants.push(r)`. The contact upsert decides it: an upsert error
or a falsy reply id hits `continue`; afterwards the opportunity POST is
attempted when `year && stageId`, but both its outcomes fall through to
the push (the source logs the error and has no `continue` there). -/
def processRowV2 (cfg : SyncConfig) (env : RowEnv) (r : Tenant) : Bool :=
  let _built := buildContactV2 cfg env r
  match env.upsert with
  | .error _ => false
  | .ok reply =>
    if reply.id.isEmpty then false
    else
      let stageId := chooseStage cfg.stages (yearOf r) r.status
      if yearTruthy (yearOf r) && !stageId.isEmpty then
        match env.opp with
        | .ok _ => true
        | .error _ => true
      else true

/-! ## The run models (checkpoint logic and HTTP status) -/

/-- `new Date(ls && ca ? (ls > ca ? ls : ca) : ls || ca)` from the
checkpoint reduce: the later of the two timestamps, one of them when the
other is null, and the epoch (`new Date(null)` = 0) when both are. -/
def tenantTs (t : Tenant) : Nat :=
  match t.last_scraped_at, t.created_at with
  | some l, some c => if l > c then l else c
  | some l, none => l
  | none, some c => c
  | none, none => 0

/-- The checkpoint reduce over the processed rows, seeded with
`new Date(sinceISO)` (part_011 lines 586-595). -/
def checkpointReduce (since : Nat) (processed : List Tenant) : Nat :=
  processed.foldl (fun latest t => if tenantTs t > latest then tenantTs t else latest) since

/-- The per-run inputs a handler invocation reads from the outside world;
`ε` is the per-row effect environment (`RowEnv` for v2, `RowEnvV1` for v1). -/
structure RunInput (ε : Type) where
  criticalMissing : Bool
  readError : Bool
  since : Nat
  now : Nat
  candidates : List Tenant
  rowEnv : Tenant → ε
  ckptWriteOk : Bool

/-- What a run produces: HTTP status, status line, the checkpoint value
that ended up stored (none when nothing was stored), and the
`processedTenants` list. -/
structure RunResult where
  status : Nat
  message : String
  ckptWritten : Option Nat
  processed : List Tenant
deriving DecidableEq

/-- The `processedTenants` list the v2 row loop accumulates: each
iteration is wrapped in its own try/catch, so a row's membership depends
only on that row's own outcomes. -/
def processedV2 (cfg : SyncConfig) (inp : RunInput RowEnv) : List Tenant :=
  inp.candidates.filter (fun r => processRowV2 cfg (inp.rowEnv r) r)

/-- The v2 handler run (part_011 lines 215-654): config checks, checkpoint
read, candidate query, the row loop, and the checkpoint write. With
candidates but zero processed rows the checkpoint is set to the current
time ("Always update the checkpoint even if no tenants were processed"). -/
def runSyncV2 (cfg : SyncConfig) (inp : RunInput RowEnv) : RunResult :=
  if inp.criticalMissing then
    ⟨500, "Configuration error: Missing critical environment variables", none, []⟩
  else if configMissingV2 cfg then
    ⟨500, "Configuration error: Missing GHL IDs", none, []⟩
  else if inp.readError then
    ⟨500, "Supabase read failed", none, []⟩
  else if inp.candidates.isEmpty then
    ⟨200, "No new tenants", none, []⟩
  else
    if (processedV2 cfg inp).length > 0 then
      if inp.ckptWriteOk then
        ⟨200, "Synced " ++ toString (processedV2 cfg inp).length ++ " tenants",
          some (checkpointReduce inp.since (processedV2 cfg inp)), processedV2 cfg inp⟩
      else
        ⟨500, "Synced " ++ toString (processedV2 cfg inp).length ++
          " tenants but failed to update checkpoint", none, processedV2 cfg inp⟩
    else
      if inp.ckptWriteOk then
        ⟨200, "Processed 0 tenants successfully", some inp.now, processedV2 cfg inp⟩
      else
        ⟨500, "Processed 0 tenants but failed to update checkpoint", none,
          processedV2 cfg inp⟩

/-! ## The v1 handler (src/index.ts) -/

/-- The raw primary/secondary extraction of the v1 row loop (index.ts
lines 97-132): slash-split of the first entry, with the second array entry
as a fallback secondary. -/
def extractPhonesV1 (tp : PhoneField) : String × String :=
  match tp with
  | .arr [] => ("", "")
  | .arr (p0 :: rest) =>
    let pq :=
      if strContains p0 "/" then
        let parts := (splitSlash p0).map trimStr
        (parts.getD 0 "", if parts.length > 1 then parts.getD 1 "" else "")
      else (p0, "")
    let sec := if rest.length > 0 && pq.2.isEmpty then rest.getD 0 "" else pq.2
    (pq.1, sec)
  | .str s =>
    if s.isEmpty then ("", "")
    else if strContains s "/" then
      let parts := (splitSlash s).map trimStr
      (parts.getD 0 "", if parts.length > 1 then parts.getD 1 "" else "")
    else (s, "")
  | .nullv => ("", "")

/-- The v1 phone formatting (index.ts lines 135-159 and 186-201): spaced
"+1 XXXXXXXXXX" style, truncation to 15 digits, pass-through when cleaning
leaves nothing. -/
def formatPhoneV1 (p : String) : String :=
  if p.isEmpty then p
  else
    let cleaned := stripNonDigits p
    if strLen cleaned == 10 then "+1 " ++ cleaned
    else if strLen cleaned == 11 && startsWithOne cleaned then "+1 " ++ strDrop cleaned 1
    else if strLen cleaned > 0 then
      let truncated := strTake cleaned 15
      if strLen truncated ≥ 10 then "+" ++ strTake truncated 1 ++ " " ++ strDrop truncated 1
      else "+" ++ truncated
    else p

/-- Outcome of one v1 remote call site: the code treats a non-2xx response
and a thrown network error identically (log + `continue`), so both are the
`.error` case. The search result carries `ghSearch?.contacts?.[0]`. -/
structure RowEnvV1 where
  searchRes : Except String (Option GhlContact)
  parseTotals : String → Except String (List (String × Rat))
  upsert : Except String Unit
  opp : Except String Unit

/-- One iteration of the v1 row loop (index.ts lines 95-334): `true` iff
the row reaches `processedTenants.push(r)`. Unlike the v2 loop, a failed
search (when `rent > 0 && year`), a failed contact upsert, and a failed
opportunity POST each hit `continue`, so each of them drops the row. -/
def processRowV1 (st : StageIds) (env : RowEnvV1) (r : Tenant) : Bool :=
  let raw := extractPhonesV1 r.tenant_phone
  let _primaryPhone := formatPhoneV1 raw.1
  let _secondaryPhone := formatPhoneV1 raw.2
  let year := yearOf r
  let searchStep : Except String (Option GhlContact) :=
    if r.rent > 0 && yearTruthy year then env.searchRes else Except.ok none
  match searchStep with
  | .error _ => false
  | .ok existing =>
    let _totals :=
      if r.rent > 0 && yearTruthy year then
        let existingTotals :=
          match existing with
          | some c =>
            match c.yearly_rent_totals_json with
            | some s =>
              if s.isEmpty then []
              else
                match env.parseTotals s with
                | .ok t => t
                | .error _ => []
            | none => []
          | none => []
        let yk := year.getD ""
        some (jsSet existingTotals yk ((jsGet existingTotals yk).getD 0 + r.rent))
      else none
    match env.upsert with
    | .error _ => false
    | .ok _ =>
      let _stageId := chooseStage st (yearOf r) r.status
      match env.opp with
      | .error _ => false
      | .ok _ => true

/-- The `processedTenants` list of the v1 row loop. -/
def processedV1 (st : StageIds) (inp : RunInput RowEnvV1) : List Tenant :=
  inp.candidates.filter (fun r => processRowV1 st (inp.rowEnv r) r)

/-- The v1 handler run (index.ts lines 50-385). Its empty-processed branch
returns 200 without touching the checkpoint (the "leave unchanged" policy). -/
def runSyncV1 (st : StageIds) (inp : RunInput RowEnvV1) : RunResult :=
  if inp.criticalMissing then
    ⟨500, "Configuration error: Missing critical environment variables", none, []⟩
  else if inp.readError then
    ⟨500, "Supabase read failed", none, []⟩
  else if inp.candidates.isEmpty then
    ⟨200, "No new tenants", none, []⟩
  else
    if (processedV1 st inp).length > 0 then
      if inp.ckptWriteOk then
        ⟨200, "Synced " ++ toString (processedV1 st inp).length ++ " tenants",
          some (checkpointReduce inp.since (processedV1 st inp)), processedV1 st inp⟩
      else
        ⟨500, "Synced " ++ toString (processedV1 st inp).length ++
          " tenants but failed to update checkpoint", none, processedV1 st inp⟩
    else
      ⟨200, "Processed 0 tenants successfully", none, processedV1 st inp⟩

/-! ## Concrete example values used by witnesses and counterexamples -/

/-- A fully configured `SyncConfig` (all ids present). -/
def cfgT : SyncConfig :=
  { pipeline := "pipe", stages := ⟨"st_new","st_needs","st_sent","st_2025","st_2026","st_past"⟩,
    cfTenantId := some "CF_TID", cfSecondaryPhone := some "CF_SEC",
    cfYearlyRentTotals := some "CF_YRT", cfTotalLifetimeRent := some "CF_TLR", owners := [] }

def stT : StageIds := ⟨"st_new","st_needs","st_sent","st_2025","st_2026","st_past"⟩

/-- A remote directory in which every lookup comes back empty. -/
def worldNone : LookupWorld :=
  ⟨fun _ => LookupOutcome.notFound, fun _ => LookupOutcome.notFound,
   fun _ => LookupOutcome.notFound⟩

/-- A row environment whose contact upsert fails (HTTP 500). -/
def envFail : RowEnv :=
  { world := worldNone, parseTotals := fun _ => Except.error "bad",
    upsert := Except.error "GHL v2 contact upsert failed: 500", opp := Except.ok () }

/-- A candidate tenant row (rent 1200, 2025 check-in, created at instant 50). -/
def tEx : Tenant :=
  { id := 1, tenant_email := "a@b.com", first_name := "A", last_name := "B",
    tenant_phone := PhoneField.nullv, user_id := "u", check_in_date := some "2025-07-18",
    status := "", confirmation_number := "", rent := 1200, rental_address := "",
    unit_number := "", unit_owner := "", owner_phone := [],
    created_at := some 50, last_scraped_at := none }

/-- A run whose single candidate fails its upsert: checkpoint read 0,
wall clock 100. -/
def inpFail : RunInput RowEnv :=
  { criticalMissing := false, readError := false, since := 0, now := 100,
    candidates := [tEx], rowEnv := fun _ => envFail, ckptWriteOk := true }

/-- A remote contact whose stored yearly-totals custom field is unparseable. -/
def cFound : GhlContact := ⟨"c77", some "oops"⟩

/-- A directory in which the email lookup finds `cFound`. -/
def worldEmailFound : LookupWorld :=
  ⟨fun _ => LookupOutcome.found cFound, fun _ => LookupOutcome.notFound,
   fun _ => LookupOutcome.failure⟩

/-- A row environment whose stored-aggregate JSON parse throws but whose
upsert succeeds. -/
def envParseFail : RowEnv :=
  { world := worldEmailFound, parseTotals := fun _ => Except.error "bad json",
    upsert := Except.ok ⟨"c77"⟩, opp := Except.ok () }

def inpParseFail : RunInput RowEnv :=
  { criticalMissing := false, readError := false, since := 0, now := 100,
    candidates := [tEx], rowEnv := fun _ => envParseFail, ckptWriteOk := true }

/-- A v1 row environment: contact upsert succeeds, opportunity POST fails. -/
def envOppFailV1 : RowEnvV1 :=
  { searchRes := Except.ok none, parseTotals := fun _ => Except.ok [],
    upsert := Except.ok (), opp := Except.error "GHL opportunity upsert failed: 500" }

/-- A rent-0 tenant (the v1 loop then skips the remote search step). -/
def tOpp : Tenant :=
  { id := 7, tenant_email := "x@y.com", first_name := "X", last_name := "Y",
    tenant_phone := PhoneField.nullv, user_id := "u", check_in_date := none,
    status := "", confirmation_number := "", rent := 0, rental_address := "",
    unit_number := "", unit_owner := "", owner_phone := [],
    created_at := some 60, last_scraped_at := some 61 }

def inpOppFailV1 : RunInput RowEnvV1 :=
  { criticalMissing := false, readError := false, since := 0, now := 100,
    candidates := [tOpp], rowEnv := fun _ => envOppFailV1, ckptWriteOk := true }

/-- A v2 row environment: contact upsert succeeds, opportunity POST fails. -/
def envOppFailV2 : RowEnv :=
  { world := worldNone, parseTotals := fun _ => Except.ok [],
    upsert := Except.ok ⟨"cid1"⟩, opp := Except.error "GHL opportunity upsert failed: 500" }

def inpOppFailV2 : RunInput RowEnv :=
  { criticalMissing := false, readError := false, since := 0, now := 100,
    candidates := [tEx], rowEnv := fun _ => envOppFailV2, ckptWriteOk := true }

/-- A directory whose email endpoint is down (HTTP 500) but whose phone
lookup knows one number. -/
def wC3 : LookupWorld :=
  ⟨fun _ => LookupOutcome.failure,
   fun p => if p == "+15551234567" then LookupOutcome.found ⟨"c9", none⟩
            else LookupOutcome.notFound,
   fun _ => LookupOutcome.failure⟩

/-- A PUT request whose body lacks `locationId`. -/
def optsPutT : HttpOpts :=
  { method := "PUT", body := some (BodyVal.obj [("name", "x")]), headers := [] }

def optsGetT : HttpOpts := { method := "GET", body := none, headers := [] }
theorem jsGet_jsSet_self {α : Type} (m : List (String × α)) (k : String) (v : α) :
    jsGet (jsSet m k v) k = some v := by
  induction m with
  | nil => simp [jsSet, jsGet]
  | cons p rest ih =>
    by_cases h : p.1 = k
    · simp [jsSet, jsGet, h]
    · have hb : (p.1 == k) = false := by simp [h]
      simp [jsSet, jsGet, hb, ih]

theorem jsGet_jsSet_ne {α : Type} (m : List (String × α)) (k k' : String) (v : α)
    (h : k' ≠ k) : jsGet (jsSet m k v) k' = jsGet m k' := by
  induction m with
  | nil =>
    have hb : (k == k') = false := by
      simp only [beq_eq_false_iff_ne]
      exact fun e => h e.symm
    simp [jsSet, jsGet, hb]
  | cons p rest ih =>
    by_cases hp : p.1 = k
    · have hb : (p.1 == k) = true := by simp [hp]
      have hb' : (p.1 == k') = false := by
        simp only [beq_eq_false_iff_ne]
        rw [hp]
        exact fun e => h e.symm
      simp [jsSet, jsGet, hb, hb']
    · have hb : (p.1 == k) = false := by simp [hp]
      simp [jsSet, jsGet, hb, ih]

/-! ## Helper lemmas -/

theorem getEmail_eq_step (w : LookupWorld) (e : String) :
    getContactByEmailV2 w e = lookupStep e (w.byEmail e) := by
  cases h : w.byEmail e <;> simp [getContactByEmailV2, lookupStep, lookupToOption, h]

theorem phoneStep_eq (w : LookupWorld) (p : String) :
    (if !p.isEmpty then getContactByPhoneV2 w p else none) = lookupStep p (w.byPhone p) := by
  by_cases hp : p.isEmpty <;>
    cases h : w.byPhone p <;>
      simp [getContactByPhoneV2, lookupStep, lookupToOption, hp, h]

theorem confStep_eq (w : LookupWorld) (c : String) :
    (if !c.isEmpty then getContactByQueryV2 w c else none) = lookupStep c (w.byQuery c) := by
  by_cases hc : c.isEmpty <;>
    cases h : w.byQuery c <;>
      simp [getContactByQueryV2, lookupStep, lookupToOption, hc, h]

theorem queryStep_eq (w : LookupWorld) (q : String) :
    getContactByQueryV2 w q = lookupStep q (w.byQuery q) := by
  cases h : w.byQuery q <;> simp [getContactByQueryV2, lookupStep, lookupToOption, h]

theorem resolve_eq_cascade (w : LookupWorld) (email phone conf : String) (tid : Nat) :
    resolveContact w email phone conf tid = cascadeSpec w email phone conf (toString tid) := by
  unfold resolveContact cascadeSpec
  rw [getEmail_eq_step, phoneStep_eq, confStep_eq, queryStep_eq]
  cases lookupStep email (w.byEmail email) <;>
    cases lookupStep phone (w.byPhone phone) <;>
      cases lookupStep conf (w.byQuery conf) <;>
        cases lookupStep (toString tid) (w.byQuery (toString tid)) <;>
          simp [firstSome]

theorem le_checkpointReduce (since : Nat) (l : List Tenant) :
    since ≤ checkpointReduce since l := by
  induction l generalizing since with
  | nil => simp [checkpointReduce]
  | cons t rest ih =>
    have h1 : since ≤ if tenantTs t > since then tenantTs t else since := by
      split
      · omega
      · exact Nat.le_refl since
    exact Nat.le_trans h1 (ih _)

theorem runSyncV2_ckpt_cases (cfg : SyncConfig) (inp : RunInput RowEnv) :
    (runSyncV2 cfg inp).ckptWritten = none
    ∨ (runSyncV2 cfg inp).ckptWritten = some inp.now
    ∨ (runSyncV2 cfg inp).ckptWritten
      = some (checkpointReduce inp.since (processedV2 cfg inp)) := by
  unfold runSyncV2
  split
  · exact Or.inl rfl
  split
  · exact Or.inl rfl
  split
  · exact Or.inl rfl
  split
  · exact Or.inl rfl
  split
  · split
    · exact Or.inr (Or.inr rfl)
    · exact Or.inl rfl
  · split
    · exact Or.inr (Or.inl rfl)
    · exact Or.inl rfl

theorem runSyncV1_ckpt_cases (st : StageIds) (inp : RunInput RowEnvV1) :
    (runSyncV1 st inp).ckptWritten = none
    ∨ (runSyncV1 st inp).ckptWritten
      = some (checkpointReduce inp.since (processedV1 st inp)) := by
  unfold runSyncV1
  split
  · exact Or.inl rfl
  split
  · exact Or.inl rfl
  split
  · exact Or.inl rfl
  split
  · split
    · exact Or.inr rfl
    · exact Or.inl rfl
  · exact Or.inl rfl

/-! ## The claims -/

/-- C1 (counterexample): the claim says a run that found candidates and
processed none of them does not move the checkpoint past the failed rows'
timestamps. In the v2 handler, a run with one candidate (timestamp 50)
whose upsert fails writes the current time (100) as the checkpoint,
advancing past the failed row. -/
theorem C1_checkpoint_counterexample :
    inpFail.candidates = [tEx]
    ∧ processRowV2 cfgT envFail tEx = false
    ∧ tenantTs tEx = 50
    ∧ (runSyncV2 cfgT inpFail).ckptWritten = some 100
    ∧ ¬(100 ≤ 50) :=
  ⟨rfl, rfl, rfl, rfl, by omega⟩

/-- C1 (amended): on a run that reaches the row loop, when no candidate
was processed the checkpoint is set to the current wall-clock time — even
past the failed rows' timestamps; when some rows were processed it is set
to the maximum of the prior checkpoint and the processed rows' timestamps,
taking no account of failed rows. -/
theorem C1_checkpoint_advance (cfg : SyncConfig) (inp : RunInput RowEnv)
    (hcrit : inp.criticalMissing = false) (hcfg : configMissingV2 cfg = false)
    (hread : inp.readError = false) (hw : inp.ckptWriteOk = true)
    (hcand : inp.candidates.isEmpty = false) :
    (processedV2 cfg inp = [] → (runSyncV2 cfg inp).ckptWritten = some inp.now)
    ∧ (0 < (processedV2 cfg inp).length →
        (runSyncV2 cfg inp).ckptWritten
          = some (checkpointReduce inp.since (processedV2 cfg inp))) := by
  constructor
  · intro h0
    unfold runSyncV2
    rw [hcrit, hcfg, hread, hw, hcand, h0]
    simp
  · intro hpos
    unfold runSyncV2
    rw [hcrit, hcfg, hread, hw, hcand]
    simp [hpos]

/-- C1 (witness): the amended claim applied to the all-failed run. -/
theorem C1_checkpoint_advance_witness :
    (runSyncV2 cfgT inpFail).ckptWritten = some 100 :=
  (C1_checkpoint_advance cfgT inpFail rfl rfl rfl rfl rfl).1 rfl

/-- C2 (counterexample): the claim says a per-row failure (among them a
JSON parse error on the stored yearly-totals aggregate) leaves the row
logged and abandoned. In the v2 handler a row whose stored aggregate fails
to parse is not abandoned: the parse error falls back to empty totals and
the row is still processed (and the run returns 200). -/
theorem C2_row_abandon_counterexample :
    envParseFail.world.byEmail tEx.tenant_email = LookupOutcome.found cFound
    ∧ cFound.yearly_rent_totals_json = some "oops"
    ∧ envParseFail.parseTotals "oops" = Except.error "bad json"
    ∧ readExistingTotals envParseFail (some cFound) = []
    ∧ processRowV2 cfgT envParseFail tEx = true
    ∧ (runSyncV2 cfgT inpParseFail).processed = [tEx]
    ∧ (runSyncV2 cfgT inpParseFail).status = 200 :=
  ⟨rfl, rfl, rfl, rfl, rfl, rfl, rfl⟩

/-- C2 (amended): per-row failures are caught at the row level and never
make the run fail — when the run reaches the loop and the checkpoint write
succeeds it returns status 200 whatever the per-row outcomes are; each
row's membership in `processedTenants` depends only on its own outcomes;
a contact-upsert failure (or a falsy upsert reply id) abandons the row,
while a row whose upsert succeeds with a truthy id is always counted
(lookup and parse failures fall back, an opportunity failure is logged
only). -/
theorem C2_row_failure_isolation (cfg : SyncConfig) (inp : RunInput RowEnv)
    (hcrit : inp.criticalMissing = false) (hcfg : configMissingV2 cfg = false)
    (hread : inp.readError = false) (hw : inp.ckptWriteOk = true) :
    (runSyncV2 cfg inp).status = 200
    ∧ (runSyncV2 cfg inp).processed = processedV2 cfg inp
    ∧ (∀ env r e, env.upsert = Except.error e → processRowV2 cfg env r = false)
    ∧ (∀ env r reply, env.upsert = Except.ok reply → reply.id.isEmpty = false →
        processRowV2 cfg env r = true) := by
  refine ⟨?_, ?_, ?_, ?_⟩
  · unfold runSyncV2
    rw [hcrit, hcfg, hread, hw]
    by_cases hc : inp.candidates.isEmpty
    · simp [hc]
    · simp only [hc, if_true, if_false, Bool.false_eq_true]
      split <;> rfl
  · unfold runSyncV2
    rw [hcrit, hcfg, hread, hw]
    by_cases hc : inp.candidates.isEmpty
    · have hnil : inp.candidates = [] := by
        cases h : inp.candidates
        · rfl
        · rw [h] at hc
          simp at hc
      simp [hc, processedV2, hnil]
    · simp only [hc, if_true, if_false, Bool.false_eq_true]
      split <;> rfl
  · intro env r e hu
    simp [processRowV2, hu]
  · intro env r reply hu hid
    rcases env with ⟨w, pt, up, op⟩
    simp only at hu
    subst hu
    cases op <;> simp [processRowV2, hid]

/-- C2 (witness): the amended claim applied to the all-failed run: status
200, and the failing row was abandoned. -/
theorem C2_row_failure_isolation_witness :
    (runSyncV2 cfgT inpFail).status = 200
    ∧ processRowV2 cfgT envFail tEx = false :=
  ⟨(C2_row_failure_isolation cfgT inpFail rfl rfl rfl rfl).1,
   (C2_row_failure_isolation cfgT inpFail rfl rfl rfl rfl).2.2.1 envFail tEx
     "GHL v2 contact upsert failed: 500" rfl⟩

/-- C3: the resolver tries email, then normalized phone, then the
confirmation-code query, then the stringified tenant id, in that order,
short-circuiting on the first non-empty result and skipping steps with
empty input (this is the equality with the spec-worded `cascadeSpec`);
a failing step counts as "no match" and resolution proceeds (in
particular, a failed email lookup still lets the phone lookup answer);
and when every step fails the resolver returns `none`. -/
theorem C3_resolver_cascade (w : LookupWorld) (email phone conf : String) (tid : Nat) :
    resolveContact w email phone conf tid = cascadeSpec w email phone conf (toString tid)
    ∧ (∀ c, w.byEmail email = LookupOutcome.failure → phone.isEmpty = false →
        w.byPhone phone = LookupOutcome.found c →
        resolveContact w email phone conf tid = some c)
    ∧ (w.byEmail email = LookupOutcome.failure → w.byPhone phone = LookupOutcome.failure →
        w.byQuery conf = LookupOutcome.failure →
        w.byQuery (toString tid) = LookupOutcome.failure →
        resolveContact w email phone conf tid = none) := by
  refine ⟨resolve_eq_cascade w email phone conf tid, ?_, ?_⟩
  · intro c hf hpe hfound
    simp [resolveContact, getContactByEmailV2, getContactByPhoneV2, lookupToOption,
      hf, hfound, hpe]
  · intro h1 h2 h3 h4
    simp [resolveContact, getContactByEmailV2, getContactByPhoneV2, getContactByQueryV2,
      lookupToOption, h1, h2, h3, h4]

/-- C3 (witness): a record with a valid email whose email lookup returns
HTTP 500 is still resolved through the phone lookup. -/
theorem C3_resolver_cascade_witness :
    resolveContact wC3 "a@b.com" "+15551234567" "" 42 = some ⟨"c9", none⟩ :=
  (C3_resolver_cascade wC3 "a@b.com" "+15551234567" "" 42).2.1 ⟨"c9", none⟩ rfl
    rfl rfl

/-- C4: evaluating the phone normalizer at the inputs the claim names.
The bare digit run "185678057586097" is NOT split (the source's
special case only matches the "+"-prefixed raw string, and no 10/11 offset
split of 15 digits validates), contradicting both the claim and the
function's own doc comment; the "+"-prefixed form is split into the
claimed primary and secondary; and a digit run admitting no valid split
("999999999999999") yields a single best-effort primary and no secondary. -/
theorem C4_phone_concat_eval :
    splitAndFormatPhones "185678057586097" = ("+185678057586097", none)
    ∧ splitAndFormatPhones "+185678057586097" = ("+18567805758", some "+16097744077")
    ∧ maybeSplitConcatenated "999999999999999" = none
    ∧ splitAndFormatPhones "999999999999999" = ("+999999999999999", none) :=
  ⟨rfl, rfl, rfl, rfl⟩

/-- C5: whenever a run writes a checkpoint, the written value is at least
the value read at the start of the run, under both empty-run policies in
the source — the v2 handler (advance to now on zero processed; needs the
run's wall clock to be at or after the stored checkpoint) and the v1
handler (leave unchanged on zero processed). -/
theorem C5_checkpoint_monotone (cfg : SyncConfig) (st : StageIds)
    (inpA : RunInput RowEnv) (inpB : RunInput RowEnvV1)
    (hA : inpA.since ≤ inpA.now) :
    (∀ v, (runSyncV2 cfg inpA).ckptWritten = some v → inpA.since ≤ v)
    ∧ (∀ v, (runSyncV1 st inpB).ckptWritten = some v → inpB.since ≤ v) := by
  constructor
  · intro v hv
    rcases runSyncV2_ckpt_cases cfg inpA with h | h | h
    · rw [h] at hv
      exact Option.noConfusion hv
    · rw [h] at hv
      injection hv with e
      omega
    · rw [h] at hv
      injection hv with e
      rw [← e]
      exact le_checkpointReduce _ _
  · intro v hv
    rcases runSyncV1_ckpt_cases st inpB with h | h
    · rw [h] at hv
      exact Option.noConfusion hv
    · rw [h] at hv
      injection hv with e
      rw [← e]
      exact le_checkpointReduce _ _

/-- C5 (witness): applied to a concrete v2 run (checkpoint 0, clock 100)
that writes checkpoint 100. -/
theorem C5_checkpoint_monotone_witness :
    inpFail.since ≤ inpFail.now ∧ inpFail.since ≤ 100 :=
  ⟨by decide, (C5_checkpoint_monotone cfgT stT inpFail inpOppFailV1 (by decide)).1 100 rfl⟩

/-- C6 (counterexample): the claim says a row whose contact upsert
succeeds but whose opportunity creation fails is still counted as
processed. In the v1 handler (src/index.ts) the opportunity failure hits
`continue`, so the row is NOT counted. -/
theorem C6_opportunity_counterexample :
    envOppFailV1.upsert = Except.ok ()
    ∧ envOppFailV1.opp = Except.error "GHL opportunity upsert failed: 500"
    ∧ processRowV1 stT envOppFailV1 tOpp = false
    ∧ inpOppFailV1.candidates = [tOpp]
    ∧ (runSyncV1 stT inpOppFailV1).processed = [] :=
  ⟨rfl, rfl, rfl, rfl, rfl⟩

/-- C6 (amended): in the v2 handler (part_011) a row whose contact upsert
succeeds (truthy reply id) is counted as processed even when its
opportunity POST fails — the failure is logged and does not roll back the
contact success; in the v1 handler the same row is dropped. -/
theorem C6_opportunity_failure_still_processed (cfg : SyncConfig)
    (inp : RunInput RowEnv) (r : Tenant) (reply : UpsertReply) (e : String)
    (hcrit : inp.criticalMissing = false) (hcfg : configMissingV2 cfg = false)
    (hread : inp.readError = false)
    (hmem : r ∈ inp.candidates)
    (hu : (inp.rowEnv r).upsert = Except.ok reply) (hid : reply.id.isEmpty = false)
    (ho : (inp.rowEnv r).opp = Except.error e) :
    processRowV2 cfg (inp.rowEnv r) r = true
    ∧ r ∈ (runSyncV2 cfg inp).processed := by
  have hrow : processRowV2 cfg (inp.rowEnv r) r = true := by
    unfold processRowV2
    rw [hu]
    simp only [hid, Bool.false_eq_true, if_false]
    split
    · cases hop : (inp.rowEnv r).opp <;> rfl
    · rfl
  refine ⟨hrow, ?_⟩
  have hc : inp.candidates.isEmpty = false := by
    cases h : inp.candidates
    · rw [h] at hmem
      cases hmem
    · rfl
  have hproc : (runSyncV2 cfg inp).processed = processedV2 cfg inp := by
    unfold runSyncV2
    rw [hcrit, hcfg, hread, hc]
    simp only [if_false, Bool.false_eq_true]
    split <;> split <;> rfl
  rw [hproc]
  exact List.mem_filter.mpr ⟨hmem, hrow⟩

/-- C6 (witness): the amended claim applied to a concrete v2 run whose
opportunity POST fails. -/
theorem C6_opportunity_witness :
    processRowV2 cfgT (inpOppFailV2.rowEnv tEx) tEx = true
    ∧ tEx ∈ (runSyncV2 cfgT inpOppFailV2).processed :=
  C6_opportunity_failure_still_processed cfgT inpOppFailV2 tEx ⟨"cid1"⟩
    "GHL opportunity upsert failed: 500" rfl rfl rfl (List.Mem.head _) rfl rfl rfl

/-- C7: `calculateRentTotals` adds the amount into the given year's bucket
(defaulting to 0), leaves every other year unchanged, and returns a
lifetime total equal to the sum of the updated map's values; the input map
is not mutated (the source copies it, and the embedding is pure). -/
theorem C7_calculateRentTotals (rent : Rat) (year : String)
    (existingTotals : List (String × Rat)) :
    jsGet (calculateRentTotals rent year existingTotals).1 year
      = some ((jsGet existingTotals year).getD 0 + rent)
    ∧ (∀ y, y ≠ year → jsGet (calculateRentTotals rent year existingTotals).1 y
        = jsGet existingTotals y)
    ∧ (calculateRentTotals rent year existingTotals).2
      = ((calculateRentTotals rent year existingTotals).1.map (fun p => p.2)).foldl
          (fun a b => a + b) 0 := by
  refine ⟨?_, ?_, rfl⟩
  · simp [calculateRentTotals, jsGet_jsSet_self]
  · intro y hy
    simp [calculateRentTotals, jsGet_jsSet_ne _ _ _ _ hy]

/-- C7 (witness): the other-years-unchanged part applied at year "2024"
against an update of year "2025". -/
theorem C7_calculateRentTotals_witness :
    "2024" ≠ "2025"
    ∧ jsGet (calculateRentTotals 500 "2025" [("2025", (1000 : Rat))]).1 "2024"
      = jsGet [("2025", (1000 : Rat))] "2024" :=
  ⟨by decide,
    (C7_calculateRentTotals 500 "2025" [("2025", (1000 : Rat))]).2.1 "2024" (by decide)⟩

/-- C9: the custom-field coercion used when the contact upsert payload is
built passes an array input through unchanged, converts a map input to one
entry per key, turns null/undefined into an empty array, never throws
(it is a total function), and agrees with the part_014 variant
(`Array.isArray(x) ? x : mapCustomFields(x)`). -/
theorem C9_customFields_mapping {α : Type} (l : List (CFEntry α))
    (m : List (String × α)) (x : CFInput α) :
    upsertContactV2CustomFields (CFInput.arr l) = l
    ∧ upsertContactV2CustomFields (CFInput.obj m) = m.map (fun p => ⟨p.1, p.2⟩)
    ∧ upsertContactV2CustomFields (CFInput.nullv : CFInput α) = []
    ∧ upsertContactV2CustomFields (CFInput.undef : CFInput α) = []
    ∧ upsertContactV2CustomFields x = upsertContact14CustomFields x := by
  refine ⟨rfl, rfl, rfl, rfl, ?_⟩
  cases x <;> rfl

/-- C8 (counterexample): the claim says the location identifier is
injected as a body field on POST and PUT requests when absent; a PUT
request through `ghlFetchV2` keeps its body unchanged and without
`locationId`. -/
theorem C8_remote_client_counterexample :
    optsPutT.method = "PUT"
    ∧ (ghlPrepareV2 "k2" "https://services.leadconnectorhq.com/contacts/abc" optsPutT).body
      = some (BodyVal.obj [("name", "x")])
    ∧ jsGet [("name", "x")] "locationId" = none :=
  ⟨rfl, rfl, rfl⟩

/-- C8 (amended): every request prepared by the remote client (whose call
sites pass no extra headers) carries the bearer authorization, API-version
and JSON content-type headers; `locationId` is added to a GET URL only
when not already present, and to a POST body only when not already
present; a PUT body passes through unchanged; and every non-2xx response
becomes a raised failure instead of a returned body. -/
theorem C8_remote_client (keyV2 url : String) (opts : HttpOpts)
    (hh : opts.headers = []) :
    jsGet (ghlPrepareV2 keyV2 url opts).headers "Authorization" = some ("Bearer " ++ keyV2)
    ∧ jsGet (ghlPrepareV2 keyV2 url opts).headers "Version" = some "2021-07-28"
    ∧ jsGet (ghlPrepareV2 keyV2 url opts).headers "Content-Type" = some "application/json"
    ∧ (opts.method = "GET" → strContains url "locationId=" = true →
        (ghlPrepareV2 keyV2 url opts).url = url)
    ∧ (opts.method = "GET" → strContains url "locationId=" = false →
        (ghlPrepareV2 keyV2 url opts).url
          = url ++ (if strContains url "?" then "&" else "?") ++ "locationId=" ++ LOCATION_ID)
    ∧ (∀ fields, opts.method = "POST" → opts.body = some (BodyVal.obj fields) →
        ((jsGet fields "locationId").getD "" = "" →
          (ghlPrepareV2 keyV2 url opts).body
            = some (BodyVal.obj (jsSet fields "locationId" LOCATION_ID))
          ∧ jsGet (jsSet fields "locationId" LOCATION_ID) "locationId" = some LOCATION_ID)
        ∧ ((jsGet fields "locationId").getD "" ≠ "" →
          (ghlPrepareV2 keyV2 url opts).body = opts.body))
    ∧ (opts.method = "PUT" → (ghlPrepareV2 keyV2 url opts).body = opts.body)
    ∧ (∀ status bodyText, status < 200 ∨ 300 ≤ status →
        ghlCheckV2 status bodyText = Except.error ("GHL v2 failed " ++ toString status)) := by
  refine ⟨?_, ?_, ?_, ?_, ?_, ?_, ?_, ?_⟩
  · simp [ghlPrepareV2, hh, jsGet]
  · simp [ghlPrepareV2, hh, jsGet]
  · simp [ghlPrepareV2, hh, jsGet]
  · intro hm hc
    simp [ghlPrepareV2, hm, hc]
  · intro hm hc
    simp [ghlPrepareV2, hm, hc]
  · intro fields hm hb
    constructor
    · intro habs
      have hb' : ((jsGet fields "locationId").getD "" == "") = true := by simp [habs]
      constructor
      · simp [ghlPrepareV2, hm, hb, hb']
      · exact jsGet_jsSet_self fields "locationId" LOCATION_ID
    · intro hpres
      have hb' : ((jsGet fields "locationId").getD "" == "") = false := by simp [hpres]
      simp [ghlPrepareV2, hm, hb, hb']
  · intro hm
    simp [ghlPrepareV2, hm]
  · intro status bodyText h
    rw [ghlCheckV2, if_neg (by omega)]

/-- C8 (witness): the amended claim applied to a concrete GET request and
a concrete 422 response. -/
theorem C8_remote_client_witness :
    jsGet (ghlPrepareV2 "K" "https://services.leadconnectorhq.com/contacts" optsGetT).headers
      "Authorization" = some ("Bearer " ++ "K")
    ∧ ghlCheckV2 422 "bad" = Except.error ("GHL v2 failed " ++ toString 422) :=
  ⟨(C8_remote_client "K" "https://services.leadconnectorhq.com/contacts" optsGetT rfl).1,
   (C8_remote_client "K" "https://services.leadconnectorhq.com/contacts" optsGetT rfl).2.2.2.2.2.2.2
     422 "bad" (Or.inr (by omega))⟩

/-- C10: an input on which the phone normalizer returns an empty primary
with a non-empty secondary exists ("12345/2036718335": the first part
cleans to fewer than 10 digits, the second is a valid 10-digit number),
and on it the v2 handler's string branch sets no contact phone while still
attaching the formatted secondary number as the secondary-phone custom
field. -/
theorem C10_empty_primary_with_secondary :
    splitAndFormatPhones "12345/2036718335" = ("", some "+12036718335")
    ∧ contactPhoneFields cfgT (PhoneField.str "12345/2036718335")
      = (none, [⟨"CF_SEC", CFVal.s "+12036718335"⟩]) :=
  ⟨rfl, rfl⟩
